import Mathlib

/-!
Verification of the draggable-points module (js/modules/draggable-points.src.js).

The module translates pointer gestures into data mutations on chart points.
This file gives a shallow embedding of its data model and algorithms over the
rationals, and proves properties of the drag/resize engine: the value
translation in getDropValues, precision rounding and clamping in limitToRange,
field validation, the sensitivity gate in mouseMove, point grouping in
getGroupedPoints and getNewPoints, guide-box edge flipping for reversed axes,
and the session lifecycle in mouseDown and mouseUp.

Conventions of the embedding:
- JS numbers are modelled as rationals; Math.round(x) is floor (x + 1/2).
- Undefined or missing option values are modelled with Option; the pick
  utility is Option.getD, matching H.pick on a value and one default.
- Option objects are records whose fields default to none; merge of two
  option objects is fieldwise, the second argument winning, as H.merge does
  for the flat objects involved here.
- Points are mutable shared objects in the source; here updates to a point
  are applied simultaneously to every reference the chart holds to it
  (series.points, dragDropData.point, dragDropData.groupedPoints).
- Rendering calls (SVG attributes, drag handle paths, guide box styling) and
  the animation timer are not modelled; the guide box is kept as its
  geometry (x, y, width, height and a translation).
- The prop names registered by the series types in the module are x, y, low
  and high (x2, start and end behave like low and high and are omitted from
  the point record).
-/

namespace DraggablePoints

/-- H.pick restricted to one candidate and a default: the candidate wins when
it is defined. -/
def pick {α : Type} (o : Option α) (d : α) : α := o.getD d

/-- JS Math.round: round half toward positive infinity. -/
def jsRound (x : ℚ) : ℚ := ((⌊x + 1/2⌋ : ℤ) : ℚ)

/-- The axis a drag prop is linked to, and the suffix used for the option
names dragPrecisionX, dragMinX, dragMaxX and their Y forms. -/
inductive Dir
  | X
  | Y
deriving DecidableEq

/-- Side of the guide box a resize handle moves. -/
inductive Side
  | left
  | right
  | top
  | bottom
deriving DecidableEq

/-- Axis service contract: pixel and value transforms plus orientation flags.
The toPixels and toValue calls in the source always pass true for the
padding argument, so the flag is dropped here. -/
structure Axis where
  toPixelsFn : ℚ → ℚ
  toValueFn : ℚ → ℚ
  horiz : Bool
  reversed : Bool := false

/-- The dragDrop options object, series level or point level. Every field
defaults to none, standing for an option the user did not set. The source
reads the misspelled key dragSensitiviy when resolving sensitivity, while
the API docs of the module name the option dragSensitivity; both keys are
carried so that the divergence can be stated. fieldOptions holds the
per-prop overrides looked up through optionName (draggableLow and so on). -/
structure DragDropOptions where
  draggableX : Option Bool := none
  draggableY : Option Bool := none
  fieldOptions : List (String × Bool) := []
  dragPrecisionX : Option ℚ := none
  dragPrecisionY : Option ℚ := none
  dragMinX : Option ℚ := none
  dragMaxX : Option ℚ := none
  dragMinY : Option ℚ := none
  dragMaxY : Option ℚ := none
  dragSensitivity : Option ℚ := none
  dragSensitiviy : Option ℚ := none
  groupBy : Option String := none
  liveRedraw : Option Bool := none
deriving DecidableEq

/-- H.merge for two flat dragDrop option objects: fields of b override fields
of a when defined. For the override list, entries of b shadow entries of a. -/
def mergeOptions (a b : DragDropOptions) : DragDropOptions where
  draggableX := b.draggableX <|> a.draggableX
  draggableY := b.draggableY <|> a.draggableY
  fieldOptions := b.fieldOptions ++ a.fieldOptions
  dragPrecisionX := b.dragPrecisionX <|> a.dragPrecisionX
  dragPrecisionY := b.dragPrecisionY <|> a.dragPrecisionY
  dragMinX := b.dragMinX <|> a.dragMinX
  dragMaxX := b.dragMaxX <|> a.dragMaxX
  dragMinY := b.dragMinY <|> a.dragMinY
  dragMaxY := b.dragMaxY <|> a.dragMaxY
  dragSensitivity := b.dragSensitivity <|> a.dragSensitivity
  dragSensitiviy := b.dragSensitiviy <|> a.dragSensitiviy
  groupBy := b.groupBy <|> a.groupBy
  liveRedraw := b.liveRedraw <|> a.liveRedraw

/-- Lookup of the option named dragPrecisionX or dragPrecisionY built by
string concatenation in the source. -/
def dragPrecisionOf (o : DragDropOptions) : Dir → Option ℚ
  | Dir.X => o.dragPrecisionX
  | Dir.Y => o.dragPrecisionY

/-- Lookup of dragMinX or dragMinY. -/
def dragMinOf (o : DragDropOptions) : Dir → Option ℚ
  | Dir.X => o.dragMinX
  | Dir.Y => o.dragMinY

/-- Lookup of dragMaxX or dragMaxY. -/
def dragMaxOf (o : DragDropOptions) : Dir → Option ℚ
  | Dir.X => o.dragMaxX
  | Dir.Y => o.dragMaxY

/-- Lookup of a per-prop enable override by its optionName. -/
def fieldOptionOf (o : DragDropOptions) (name : String) : Option Bool :=
  (o.fieldOptions.find? (fun kv => kv.1 == name)).map (fun kv => kv.2)

/-- Point level options: the dragDrop sub-object and the plain attributes the
grouping key is looked up in (point.options[groupKey]). -/
structure PointOptions where
  dragDrop : DragDropOptions := {}
  attrs : List (String × ℚ) := []
deriving DecidableEq

/-- Lookup point.options[key]. -/
def PointOptions.lookup (o : PointOptions) (k : String) : Option ℚ :=
  (o.attrs.find? (fun kv => kv.1 == k)).map (fun kv => kv.2)

/-- Geometry of the guide box rectangle: the attr values x, y, width, height
plus the translation set by SVGElement.translate. -/
structure GuideBox where
  x : ℚ
  y : ℚ
  width : ℚ
  height : ℚ
  translateX : ℚ := 0
  translateY : ℚ := 0
deriving DecidableEq

/-- A data point: its id, its draggable data props, its options, and the
bounding box of its rendered graphic (supplied by the rendering service). -/
structure Point where
  id : String
  x : ℚ := 0
  y : ℚ := 0
  low : ℚ := 0
  high : ℚ := 0
  options : PointOptions := {}
  graphic : GuideBox := { x := 0, y := 0, width := 0, height := 0 }
deriving DecidableEq

/-- Read point[key] for the registered prop names. -/
def Point.getProp (p : Point) (key : String) : ℚ :=
  if key == "x" then p.x
  else if key == "y" then p.y
  else if key == "low" then p.low
  else if key == "high" then p.high
  else 0

/-- Write point[key] for the registered prop names. -/
def Point.setProp (p : Point) (key : String) (v : ℚ) : Point :=
  if key == "x" then { p with x := v }
  else if key == "y" then { p with y := v }
  else if key == "low" then { p with low := v }
  else if key == "high" then { p with high := v }
  else p

/-- point.update(newValues, false): assign each listed prop. -/
def Point.applyValues (p : Point) (vals : List (String × ℚ)) : Point :=
  vals.foldl (fun q kv => q.setProp kv.1 kv.2) p

/-- A field descriptor from a dragDropProps registry entry. resizeSide is
either a fixed side or a function of the proposed values and the point;
propValidate and beforeResize are the optional hooks. The rendering hooks
handlePositioner and handleFormatter are not modelled. -/
inductive ResizeSideSpec
  | fixed (side : Side)
  | fn (f : List (String × ℚ) → Point → Side)

/-- One entry of a dragDropProps registry table. -/
structure DragDropProp where
  axis : Dir
  move : Bool := false
  resize : Bool := false
  optionName : Option String := none
  resizeSide : Option ResizeSideSpec := none
  propValidate : Option (ℚ → Point → Bool) := none
  beforeResize : Option (GuideBox → List (String × ℚ) → Point → GuideBox) := none

/-- A pointer event: page coordinates plus the resolved result of
chart.zoomOrPanKeyPressed for this event. -/
structure MouseEvent where
  pageX : ℚ
  pageY : ℚ
  zoomOrPanKey : Bool := false
deriving DecidableEq

/-- The position snapshot stored as dragDropData.origin: pointer coordinates
at drag start, the guide box attrs at drag start, and per point id the prop
values at drag start. The source also probes origin.x and origin.y inside
getDropValues through pick; the snapshot never sets them, and they are kept
as Option fields so that the probe is embedded faithfully. prevdX and
prevdY are written onto the origin object by dragMove. -/
structure Origin where
  pageX : ℚ
  pageY : ℚ
  x : Option ℚ := none
  y : Option ℚ := none
  guideBox : Option GuideBox := none
  points : String → String → ℚ
  prevdX : Option ℚ := none
  prevdY : Option ℚ := none

/-- One entry of the newPoints hashmap: the point reference and its proposed
new values. -/
structure PointUpdate where
  point : Point
  newValues : List (String × ℚ)
deriving DecidableEq

/-- The per-session data stored as chart.dragDropData. -/
structure DragDropData where
  origin : Origin
  point : Point
  groupedPoints : List Point
  isDragging : Bool := false
  updateProp : Option String := none
  draggedPastSensitivity : Bool := false
  newPoints : Option (List (String × PointUpdate)) := none

/-- The series the drag happens on: its axes, its resolved series level
dragDrop options, its dragDropProps registry table, and its points. -/
structure SeriesModel where
  xAxis : Axis
  yAxis : Axis
  dragDropOpts : DragDropOptions := {}
  dragDropProps : List (String × DragDropProp) := []
  points : List Point := []

/-- The chart state the module keeps: the single series under drag, the
inversion flag, the hovered point, the session data, the guide box, and the
two transient flags. -/
structure Chart where
  series : SeriesModel
  inverted : Bool := false
  hoverPoint : Option Point := none
  dragDropData : Option DragDropData := none
  dragGuideBox : Option GuideBox := none
  isDragging : Bool := false
  isDragDropAnimating : Bool := false

/-- defaultDragSensitivity from the module head. -/
def defaultDragSensitivity : ℚ := 2

/-- hasDraggedPastSensitivity: the source compares the Euclidean distance
from the down position with the sensitivity. Over the rationals the square
root is replaced by the equivalent characterization: for d2 ≥ 0 one has
sqrt d2 > s exactly when s < 0 or s * s < d2. -/
def hasDraggedPastSensitivity (e : MouseEvent) (origin : Origin)
    (sensitivity : ℚ) : Bool :=
  let dx := e.pageX - origin.pageX
  let dy := e.pageY - origin.pageY
  decide (sensitivity < 0) || decide (sensitivity * sensitivity < dx * dx + dy * dy)

/-- getPositionSnapshot: record the pointer position, the guide box attrs if
one is shown, and for every affected point the values of all props in the
dragDropProps table. Entries outside the snapshot are modelled as 0; the
engine only ever reads registered props of snapshotted points. -/
def getPositionSnapshot (e : MouseEvent) (points : List Point)
    (props : List (String × DragDropProp)) (guideBox : Option GuideBox) :
    Origin where
  pageX := e.pageX
  pageY := e.pageY
  guideBox := guideBox
  points := fun id key =>
    match points.find? (fun p => p.id == id) with
    | some p => if props.any (fun kv => kv.1 == key) then p.getProp key else 0
    | none => 0

/-- getGroupedPoints: when a groupBy key is configured and the point has a
truthy value for it, every series point with the same value; otherwise the
point alone. Truthiness of the looked-up value is nonzero. -/
def getGroupedPoints (series : SeriesModel) (point : Point) : List Point :=
  let lookup := fun (p : Point) =>
    match series.dragDropOpts.groupBy with
    | some k => p.options.lookup k
    | none => none
  match lookup point with
  | some v =>
      if v ≠ 0 then
        series.points.filter (fun cp => lookup cp == some v)
      else [point]
  | none => [point]

/-- resizeRect: move one edge of a rectangle, flooring width and height at 1.
A side the source could not match leaves the rectangle unchanged. -/
def resizeRect (rect : GuideBox) (updateSide : Option Side) (update : ℚ × ℚ) :
    GuideBox :=
  match updateSide with
  | some Side.left =>
      { rect with x := rect.x + update.1, width := max 1 (rect.width - update.1) }
  | some Side.right =>
      { rect with width := max 1 (rect.width + update.1) }
  | some Side.top =>
      { rect with y := rect.y + update.2, height := max 1 (rect.height - update.2) }
  | some Side.bottom =>
      { rect with height := max 1 (rect.height + update.2) }
  | none => rect

/-- flipResizeSide: left and right swap, top and bottom swap. -/
def flipResizeSide : Side → Side
  | Side.left => Side.right
  | Side.right => Side.left
  | Side.top => Side.bottom
  | Side.bottom => Side.top

/-- getGuideBox: the bounding rectangle of the graphics of the points. The
source starts from infinite bounds; the empty list cannot reach the fold in
practice and is mapped to a degenerate rectangle. -/
def getGuideBox (points : List Point) : GuideBox :=
  match points with
  | [] => { x := 0, y := 0, width := 0, height := 0 }
  | p :: ps =>
      let step := fun (acc : ℚ × ℚ × ℚ × ℚ) (q : Point) =>
        let b := q.graphic
        (min acc.1 b.x, max acc.2.1 (b.x + b.width),
         min acc.2.2.1 b.y, max acc.2.2.2 (b.y + b.height))
      let b0 := p.graphic
      let acc := ps.foldl step (b0.x, b0.x + b0.width, b0.y, b0.y + b0.height)
      { x := acc.1, y := acc.2.2.1,
        width := acc.2.1 - acc.1, height := acc.2.2.2 - acc.2.2.1 }

/-- initDragDrop: expand the point to its group, show the guide box when
liveRedraw is off, snapshot the origin and store the session data. The
styling applied by setGuideBoxState is not modelled. -/
def initDragDrop (e : MouseEvent) (point : Point) (chart : Chart) : Chart :=
  let series := chart.series
  let groupedPoints := getGroupedPoints series point
  let liveRedraw := pick series.dragDropOpts.liveRedraw true
  let guideBox := if liveRedraw then none else some (getGuideBox groupedPoints)
  let chart :=
    match guideBox with
    | some g => { chart with dragGuideBox := some g }
    | none => chart
  let data : DragDropData :=
    { origin := getPositionSnapshot e groupedPoints series.dragDropProps guideBox,
      point := point,
      groupedPoints := groupedPoints }
  { chart with dragDropData := some data, isDragging := true }

/-- limitToRange utility clamp: Math.max of the min bound with the Math.min
of the max bound and the value, bounds defaulting to minus and plus
infinity (that is, absent bounds do not constrain). -/
def clampToRange (lo hi : Option ℚ) (res : ℚ) : ℚ :=
  match lo, hi with
  | some l, some h => max l (min h res)
  | some l, none => max l res
  | none, some h => min h res
  | none, none => res

/-- limitToRange from getDropValues: apply the precision (defaulting to 1;
a zero precision is falsy and skips rounding) and then clamp into the
configured drag range for the given direction. -/
def limitToRange (options : DragDropOptions) (val : ℚ) (direction : Dir) : ℚ :=
  let precision := pick (dragPrecisionOf options direction) 1
  let res := if precision = 0 then val else jsRound (val / precision) * precision
  clampToRange (dragMinOf options direction) (dragMaxOf options direction) res

/-- The axis space delta of getDropValues: transform the reference value to
pixels, add the pixel delta for the screen axis the value axis lives on,
transform back, and subtract the reference value. -/
def dragDeltaValue (a : Axis) (oldVal dX dY : ℚ) : ℚ :=
  a.toValueFn (a.toPixelsFn oldVal + (if a.horiz then dX else dY)) - oldVal

/-- The value getDropValues proposes for one prop before validation: the
origin value of the prop plus the delta of the axis the prop is linked to,
passed through limitToRange. The reference value fed to the pixel transform
is pick of origin.x (never set by the snapshot) and the current point
value. -/
def proposedPropValue (series : SeriesModel) (options : DragDropOptions)
    (point : Point) (origin : Origin) (newPos : MouseEvent) (key : String)
    (val : DragDropProp) : ℚ :=
  let dX := newPos.pageX - origin.pageX
  let dY := newPos.pageY - origin.pageY
  let oldX := pick origin.x point.x
  let oldY := pick origin.y point.y
  let dXValue := dragDeltaValue series.xAxis oldX dX dY
  let dYValue := dragDeltaValue series.yAxis oldY dX dY
  let oldVal := origin.points point.id key
  limitToRange options (oldVal + (if val.axis = Dir.X then dXValue else dYValue))
    val.axis

/-- H.Point.prototype.getDropValues: propose a new value for every prop in
updateProps; when exactly one prop is updated and it declares propValidate,
a failing validation drops the prop from the result. updateSingleProp is
undefined for an empty table, true for one prop, false otherwise, exactly
as the probing loop in the source leaves it. -/
def getDropValues (series : SeriesModel) (point : Point) (origin : Origin)
    (newPos : MouseEvent) (updateProps : List (String × DragDropProp)) :
    List (String × ℚ) :=
  let options := mergeOptions series.dragDropOpts point.options.dragDrop
  let updateSingleProp : Option Bool :=
    match updateProps with
    | [] => none
    | [_] => some true
    | _ => some false
  updateProps.filterMap (fun kv =>
    let newVal := proposedPropValue series options point origin newPos kv.1 kv.2
    if (updateSingleProp == some true) &&
        (match kv.2.propValidate with
         | some f => !(f newVal point)
         | none => false)
    then none
    else some (kv.1, newVal))

/-- The update table getNewPoints assembles from the dragDropProps registry:
a prop is kept when the resize session (if any) names it, it is enabled by
its optionName override or the per-axis toggle, and it is resizable
respectively movable for the session kind. -/
def effectiveUpdateProps (series : SeriesModel) (options : DragDropOptions)
    (resizeProp : Option String) : List (String × DragDropProp) :=
  series.dragDropProps.filter (fun kv =>
    let val := kv.2
    let enabled := pick
      (match val.optionName with
       | some n => fieldOptionOf options n
       | none => none)
      (if val.axis = Dir.X then pick options.draggableX false
       else pick options.draggableY false)
    (match resizeProp with
     | some rp => rp == kv.1
     | none => true) &&
    enabled &&
    (if resizeProp.isSome then val.resize else val.move))

/-- getNewPoints: for a resize session only the anchor point, otherwise all
grouped points, each mapped through getDropValues, keyed by point id. -/
def getNewPoints (series : SeriesModel) (dragDropData : DragDropData)
    (newPos : MouseEvent) : List (String × PointUpdate) :=
  let point := dragDropData.point
  let options := mergeOptions series.dragDropOpts point.options.dragDrop
  let resizeProp := dragDropData.updateProp
  let updateProps := effectiveUpdateProps series options resizeProp
  let targets : List Point :=
    match resizeProp with
    | some _ => [point]
    | none => dragDropData.groupedPoints
  targets.map (fun p =>
    let vals := getDropValues series p dragDropData.origin newPos updateProps
    (p.id, { point := p, newValues := vals }))

/-- updatePoints: apply every entry of newPoints to the data model and set
the animating flag. Points are shared objects in the source, so the anchor
and grouped point references see the same new values as series.points. The
redraw call and the timer that later clears the flag are not modelled. -/
def updatePoints (chart : Chart) : Chart :=
  match chart.dragDropData with
  | none => chart
  | some d =>
    match d.newPoints with
    | none => chart
    | some nps =>
      let applyOne := fun (p : Point) =>
        nps.foldl (fun q e => if q.id == e.1 then q.applyValues e.2.newValues else q) p
      let newSeries := { chart.series with points := chart.series.points.map applyOne }
      let newData :=
        { d with point := applyOne d.point, groupedPoints := d.groupedPoints.map applyOne }
      { chart with
        isDragDropAnimating := true,
        series := newSeries,
        dragDropData := some newData }

/-- resizeGuideBox: look the resized prop up in the registry, evaluate its
resizeSide (fixed or computed from the proposed values), run beforeResize,
flip the side when the axis of the prop is reversed, and resize the box by
the pixel delta since the previous move. A missing registry entry leaves
the box unchanged. -/
def resizeGuideBox (series : SeriesModel) (dragDropData : DragDropData)
    (guideBox : GuideBox) (point : Point) (dX dY : ℚ) : GuideBox :=
  match series.dragDropProps.find?
      (fun kv => kv.1 == pick dragDropData.updateProp "") with
  | none => guideBox
  | some kv =>
    let resizeProp := kv.2
    let newPoint :=
      pick (((pick dragDropData.newPoints []).find?
        (fun e => e.1 == point.id)).map (fun e => e.2.newValues)) []
    let resizeSide :=
      match resizeProp.resizeSide with
      | some (ResizeSideSpec.fixed s) => some s
      | some (ResizeSideSpec.fn f) => some (f newPoint point)
      | none => none
    let guideBox :=
      match resizeProp.beforeResize with
      | some hook => hook guideBox newPoint point
      | none => guideBox
    resizeRect guideBox
      (if (resizeProp.axis = Dir.X ∧ series.xAxis.reversed) ∨
          (resizeProp.axis = Dir.Y ∧ series.yAxis.reversed)
       then resizeSide.map flipResizeSide else resizeSide)
      (if resizeProp.axis = Dir.X then dX - pick dragDropData.origin.prevdX 0 else 0,
       if resizeProp.axis = Dir.Y then dY - pick dragDropData.origin.prevdY 0 else 0)

/-- The final step of dragMove: write the pixel deltas of this move onto
the shared origin object as prevdX and prevdY (used by the incremental
guide box resize on the next move). -/
def storePrevDeltas (chart : Chart) (dX dY : ℚ) : Chart :=
  match chart.dragDropData with
  | some d2 =>
    let origin2 := { d2.origin with prevdX := some dX, prevdY := some dY }
    let d3 := { d2 with origin := origin2 }
    { chart with dragDropData := some d3 }
  | none => chart

/-- dragMove: recompute newPoints, then either update the points live or
update the guide box preview, and store the previous pixel deltas on the
origin object. The drag handle redraw is rendering only and not modelled. -/
def dragMove (e : MouseEvent) (chart : Chart) : Chart :=
  match chart.dragDropData with
  | none => chart
  | some data =>
    let point := data.point
    let series := chart.series
    let options := mergeOptions series.dragDropOpts point.options.dragDrop
    let draggableX := pick options.draggableX false
    let draggableY := pick options.draggableY false
    let origin := data.origin
    let dX0 := e.pageX - origin.pageX
    let dY0 := e.pageY - origin.pageY
    let dX := if chart.inverted then -dY0 else dX0
    let dY := if chart.inverted then -dX0 else dY0
    let updateProp := data.updateProp
    let np := getNewPoints series data e
    let data := { data with newPoints := some np }
    let chart := { chart with dragDropData := some data }
    let chart :=
      if pick options.liveRedraw true then
        updatePoints chart
      else
        match updateProp with
        | some _ =>
          match chart.dragGuideBox with
          | some box =>
            let box2 := resizeGuideBox series data box point dX dY
            { chart with dragGuideBox := some box2 }
          | none => chart
        | none =>
          match chart.dragGuideBox with
          | some box =>
            let box2 :=
              { box with
                translateX := if draggableX then dX else 0,
                translateY := if draggableY then dY else 0 }
            { chart with dragGuideBox := some box2 }
          | none => chart
    storePrevDeltas chart dX dY

/-- The sensitivity resolution inside mouseMove: pick of the point level
value, the series level value and the default. The source reads the
misspelled key dragSensitiviy on both levels. -/
def resolveDragSensitivity (pointOpts seriesOpts : DragDropOptions) : ℚ :=
  pick pointOpts.dragSensitiviy
    (pick seriesOpts.dragSensitiviy defaultDragSensitivity)

/-- Modelled from the spec and from the API doc block of the module (the
dragSensitivity option, default 2): the sensitivity resolution as
documented, reading the option name dragSensitivity. Used only to state the
divergence of the source from its own documentation. -/
def resolveDragSensitivityDocumented (pointOpts seriesOpts : DragDropOptions) : ℚ :=
  pick pointOpts.dragSensitivity
    (pick seriesOpts.dragSensitivity defaultDragSensitivity)

/-- mouseMove: ignore when the zoom or pan key is held; while a session is
dragging, first settle the sensitivity gate, then run the drag handler
only when the gate has been passed. The drag point event fires with its
default handler dragMove. -/
def mouseMove (e : MouseEvent) (chart : Chart) : Chart :=
  if e.zoomOrPanKey then chart
  else
    match chart.dragDropData with
    | none => chart
    | some dragDropData =>
      if dragDropData.isDragging then
        let sens := resolveDragSensitivity dragDropData.point.options.dragDrop
          chart.series.dragDropOpts
        let past :=
          if !dragDropData.draggedPastSensitivity then
            hasDraggedPastSensitivity e dragDropData.origin sens
          else dragDropData.draggedPastSensitivity
        let dragDropData := { dragDropData with draggedPastSensitivity := past }
        let chart := { chart with dragDropData := some dragDropData }
        if past then dragMove e chart else chart
      else chart

/-- mouseUp: when a drag actually happened, fire the drop event whose
default handler applies the pending updates; always delete the session data
and destroy the guide box. -/
def mouseUp (_e : MouseEvent) (chart : Chart) : Chart :=
  let chart :=
    match chart.dragDropData with
    | some d =>
      if d.isDragging && d.draggedPastSensitivity then updatePoints chart
      else chart
    | none => chart
  { chart with dragDropData := none, dragGuideBox := none }

/-- Whether the chart currently holds a dragging session. -/
def chartIsDraggingSession (chart : Chart) : Bool :=
  match chart.dragDropData with
  | some d => d.isDragging
  | none => false

/-- isPointMovable: the series has a movable prop on an enabled axis, the
point does not disable both axes, and the axes exist (always true in this
model, where a series carries both axes). -/
def isPointMovable (series : SeriesModel) (point : Point) : Bool :=
  let hasMovableX := series.dragDropProps.any
    (fun kv => decide (kv.2.axis = Dir.X) && kv.2.move)
  let hasMovableY := series.dragDropProps.any
    (fun kv => decide (kv.2.axis = Dir.Y) && kv.2.move)
  (pick series.dragDropOpts.draggableX false && hasMovableX ||
    pick series.dragDropOpts.draggableY false && hasMovableY) &&
  !(point.options.dragDrop.draggableX == some false &&
    point.options.dragDrop.draggableY == some false)

/-- mouseDown: ignore when the zoom or pan key is held; a down event during
a dragging session is forwarded to mouseUp and nothing else happens; a down
on a movable hover point opens a session and marks it dragging. -/
def mouseDown (e : MouseEvent) (chart : Chart) : Chart :=
  if e.zoomOrPanKey then chart
  else if chartIsDraggingSession chart then mouseUp e chart
  else
    match chart.hoverPoint with
    | some dragPoint =>
      if isPointMovable chart.series dragPoint then
        let chart := initDragDrop e dragPoint chart
        match chart.dragDropData with
        | some d => { chart with dragDropData := some { d with isDragging := true } }
        | none => chart
      else chart
    | none => chart

/-- onResizeHandleMouseDown: like mouseDown on the point body, but records
the single prop under resize for the lifetime of the session. -/
def onResizeHandleMouseDown (e : MouseEvent) (point : Point) (updateProp : String)
    (chart : Chart) : Chart :=
  if e.zoomOrPanKey then chart
  else
    let chart := initDragDrop e point chart
    match chart.dragDropData with
    | some d =>
      let d2 := { d with isDragging := true, updateProp := some updateProp }
      { chart with dragDropData := some d2 }
    | none => chart

/-- v is an integer multiple of p. -/
def IsMultipleOf (v p : ℚ) : Prop := ∃ k : ℤ, v = (k : ℚ) * p

/-!
Concrete fixtures used by the example theorems: identity axes, the linear
doubling axis of the move scenario, the columnrange low and high descriptors,
a grouped pair of points, and a chart on a piecewise linear axis.
-/

/-- Identity horizontal x axis. -/
def axX : Axis := { toPixelsFn := fun v => v, toValueFn := fun p => p, horiz := true }

/-- Identity vertical y axis. -/
def idAxisY : Axis := { toPixelsFn := fun v => v, toValueFn := fun p => p, horiz := false }

/-- The plain movable y descriptor (column x and y style). -/
def movePropY : DragDropProp := { axis := Dir.Y, move := true }

/-- Doubling y axis of the move scenario: toPixels v = v * 2. -/
def axC1y : Axis := { toPixelsFn := fun v => v * 2, toValueFn := fun p => p / 2, horiz := false }

/-- Point with y = 10 for the move scenario. -/
def pC1 : Point := { id := "a", y := 10 }

/-- Series for the move scenario: only y is movable, no precision or limits
configured. -/
def sC1 : SeriesModel :=
  { xAxis := axX, yAxis := axC1y,
    dragDropOpts := { draggableY := some true },
    dragDropProps := [("y", movePropY)], points := [pC1] }

/-- Origin snapshot of the move scenario, pointer down at the origin. -/
def oC1 : Origin :=
  getPositionSnapshot { pageX := 0, pageY := 0 } [pC1] sC1.dragDropProps none

/-- Series with precision 2 and drag range 0 to 5 on y. -/
def sC2 : SeriesModel :=
  { xAxis := axX, yAxis := idAxisY,
    dragDropOpts := { draggableY := some true, dragPrecisionY := some 2,
                      dragMinY := some 0, dragMaxY := some 5 },
    dragDropProps := [("y", movePropY)] }

/-- Point with y = 7 whose rounded proposal 8 exceeds the max of 5. -/
def pC2 : Point := { id := "a", y := 7 }

/-- Origin snapshot for the clamping example. -/
def oC2 : Origin :=
  getPositionSnapshot { pageX := 0, pageY := 0 } [pC2] sC2.dragDropProps none

/-- The columnrange low descriptor: movable and resizable on y, validated by
low less than high. -/
def lowProp : DragDropProp :=
  { axis := Dir.Y, move := true, resize := true, optionName := some "draggableLow",
    resizeSide := some (ResizeSideSpec.fixed Side.bottom),
    propValidate := some (fun v pt => decide (v < pt.high)) }

/-- The columnrange high descriptor: movable and resizable on y, validated by
high greater than low. -/
def highProp : DragDropProp :=
  { axis := Dir.Y, move := true, resize := true, optionName := some "draggableHigh",
    resizeSide := some (ResizeSideSpec.fixed Side.top),
    propValidate := some (fun v pt => decide (v > pt.low)) }

/-- Dual-field point with low 5 and high 15. -/
def pC3 : Point := { id := "a", low := 5, high := 15 }

/-- Columnrange style series for the validation scenario. -/
def sC3 : SeriesModel :=
  { xAxis := axX, yAxis := idAxisY,
    dragDropOpts := { draggableY := some true },
    dragDropProps :=
      [("x", { axis := Dir.X, move := true }), ("low", lowProp), ("high", highProp)],
    points := [pC3] }

/-- Origin snapshot for the validation scenario. -/
def oC3 : Origin :=
  getPositionSnapshot { pageX := 0, pageY := 0 } [pC3] sC3.dragDropProps none

/-- Anchor of the grouped pair, group key value 1, origin y = 10. -/
def pC5a : Point := { id := "a", y := 10, options := { attrs := [("g", 1)] } }

/-- Second member of the group, origin y = 52/5. -/
def pC5b : Point := { id := "b", y := 52/5, options := { attrs := [("g", 1)] } }

/-- Series grouped by the key g with the default precision in force. -/
def sC5 : SeriesModel :=
  { xAxis := axX, yAxis := idAxisY,
    dragDropOpts := { draggableY := some true, groupBy := some "g" },
    dragDropProps := [("y", movePropY)], points := [pC5a, pC5b] }

/-- Session on the anchor of the grouped pair. -/
def ddC5 : DragDropData :=
  { origin := getPositionSnapshot { pageX := 0, pageY := 0 }
      (getGroupedPoints sC5 pC5a) sC5.dragDropProps none,
    point := pC5a, groupedPoints := getGroupedPoints sC5 pC5a, isDragging := true }

/-- Piecewise linear y axis: steepness changes at value 10. Monotone and
inverse-consistent, so a valid axis service, but not translation invariant. -/
def axC6y : Axis :=
  { toPixelsFn := fun v => if v < 10 then v else 2 * v - 10,
    toValueFn := fun p => if p < 10 then p else (p + 10) / 2, horiz := false }

/-- Point with y = 8 for the intermediate position example. -/
def pC6 : Point := { id := "a", y := 8 }

/-- Series on the piecewise linear axis, precision disabled, liveRedraw left
at its default of true. -/
def sC6 : SeriesModel :=
  { xAxis := axX, yAxis := axC6y,
    dragDropOpts := { draggableY := some true, dragPrecisionY := some 0 },
    dragDropProps := [("y", movePropY)], points := [pC6] }

/-- Pointer down position of the intermediate position example. -/
def eC6o : MouseEvent := { pageX := 0, pageY := 0 }

/-- First move event: 4 pixels down. -/
def eC6a : MouseEvent := { pageX := 0, pageY := 4 }

/-- Second move event: 6 pixels down in total. -/
def eC6b : MouseEvent := { pageX := 0, pageY := 6 }

/-- Origin snapshot of the intermediate position example. -/
def oC6 : Origin := getPositionSnapshot eC6o [pC6] sC6.dragDropProps none

/-- Chart with a dragging session on the piecewise linear series, snapshot
taken with the pointer at the origin. -/
def chartC6 : Chart :=
  { series := sC6,
    dragDropData := some
      { origin := oC6, point := pC6, groupedPoints := [pC6], isDragging := true } }

/-- The point of the intermediate position example after the first move has
been applied by live redraw. -/
def pC6y11 : Point := { id := "a", y := 11 }

/-- The series of the intermediate position example after the first move. -/
def sC6b : SeriesModel := { sC6 with points := [pC6y11] }

/-- The origin object after the first move, which wrote prevdX and prevdY. -/
def oC6b : Origin := { oC6 with prevdX := some 0, prevdY := some 4 }

/-- The chart state after the first move of the intermediate position
example: the point has moved to y = 11 live, the sensitivity gate is open,
and the pending updates of the first move are stored. -/
def chartC6b : Chart :=
  { series := sC6b,
    dragDropData := some
      { origin := oC6b, point := pC6y11, groupedPoints := [pC6y11],
        isDragging := true, draggedPastSensitivity := true,
        newPoints := some [("a", { point := pC6, newValues := [("y", 11)] })] },
    isDragDropAnimating := true }

/-- Projection of a chart onto the proposed new values of its session,
dropping every function valued field so that equality is decidable. -/
def pendingValues (c : Chart) : Option (Option (List (String × List (String × ℚ)))) :=
  c.dragDropData.map (fun d =>
    d.newPoints.map (fun l => l.map (fun kv => (kv.1, kv.2.newValues))))

/-- Projection of a session onto the parts of its origin snapshot that hold
the reference frame: pointer coordinates, the probed x and y fields, and the
per point origin values. -/
def originKern (d : DragDropData) :
    ℚ × ℚ × Option ℚ × Option ℚ × (String → String → ℚ) :=
  (d.origin.pageX, d.origin.pageY, d.origin.x, d.origin.y, d.origin.points)

/-- Chart used by the session lifecycle examples: a dragging session on the
grouped series. -/
def chartC8 : Chart :=
  { series := sC5,
    hoverPoint := some pC5b,
    dragDropData := some ddC5,
    dragGuideBox := some { x := 0, y := 0, width := 4, height := 4 } }

/-- The move event used against the clamping configuration. -/
def eC2 : MouseEvent := { pageX := 0, pageY := 0 }

/-- Series with precision and range configured on both axes, for the
clamping example with both directions constrained. -/
def sC2w : SeriesModel :=
  { xAxis := axX, yAxis := idAxisY,
    dragDropOpts := { draggableY := some true,
                      dragPrecisionX := some 2, dragMinX := some 0, dragMaxX := some 100,
                      dragPrecisionY := some 2, dragMinY := some 0, dragMaxY := some 5 },
    dragDropProps := [("y", movePropY)] }

/-- Origin snapshot for the doubly constrained clamping example. -/
def oC2w : Origin :=
  getPositionSnapshot { pageX := 0, pageY := 0 } [pC2] sC2w.dragDropProps none

/-- The move event of the validation scenario: 11 pixels down, proposing
low = 16. -/
def eC3 : MouseEvent := { pageX := 0, pageY := 11 }

/-- Grouped series with precision disabled, for the group delta example. -/
def sC5w : SeriesModel :=
  { xAxis := axX, yAxis := idAxisY,
    dragDropOpts := { draggableY := some true, groupBy := some "g",
                      dragPrecisionX := some 0, dragPrecisionY := some 0 },
    dragDropProps := [("y", movePropY)], points := [] }

/-- First member of the precision free group. -/
def pW1 : Point := { id := "a", y := 10, options := { attrs := [("g", 1)] } }

/-- Second member of the precision free group. -/
def pW2 : Point := { id := "b", y := 20, options := { attrs := [("g", 1)] } }

/-- Session on the precision free group. -/
def ddC5w : DragDropData :=
  { origin := getPositionSnapshot { pageX := 0, pageY := 0 } [pW1, pW2]
      sC5w.dragDropProps none,
    point := pW1, groupedPoints := [pW1, pW2], isDragging := true }

/-- Move event of the precision free group example: 7 pixels down. -/
def eC5w : MouseEvent := { pageX := 0, pageY := 7 }

/-- Series with a reversed y axis and a top side resize descriptor. -/
def sC7 : SeriesModel :=
  { xAxis := axX,
    yAxis := { toPixelsFn := fun v => v, toValueFn := fun p => p, horiz := false,
               reversed := true },
    dragDropOpts := { draggableY := some true },
    dragDropProps := [("high", highProp)] }

/-- Session resizing the high field on the reversed axis series. -/
def ddC7 : DragDropData :=
  { origin := getPositionSnapshot { pageX := 0, pageY := 0 } [pC3]
      sC7.dragDropProps none,
    point := pC3, groupedPoints := [pC3], isDragging := true,
    updateProp := some "high", draggedPastSensitivity := true }

/-- Guide box being resized in the reversed axis example. -/
def boxC7 : GuideBox := { x := 0, y := 0, width := 10, height := 10 }

/-- Event used by the lifecycle witness. -/
def eC8 : MouseEvent := { pageX := 3, pageY := 3 }

/-- The per point values a whole point group move is expected to produce on
translation invariant axes with precision and limits disabled: for every
update prop, the origin value of the point plus the axis delta taken at
reference 0. The delta term does not depend on the point, which is the
identical-delta property. -/
def groupMoveValues (series : SeriesModel) (dd : DragDropData)
    (newPos : MouseEvent) (p : Point) : List (String × ℚ) :=
  (effectiveUpdateProps series
      (mergeOptions series.dragDropOpts dd.point.options.dragDrop) none).map
    (fun kv => (kv.1, dd.origin.points p.id kv.1 +
      (if kv.2.axis = Dir.X
       then dragDeltaValue series.xAxis 0 (newPos.pageX - dd.origin.pageX)
         (newPos.pageY - dd.origin.pageY)
       else dragDeltaValue series.yAxis 0 (newPos.pageX - dd.origin.pageX)
         (newPos.pageY - dd.origin.pageY))))

/-!
Theorems. Each claim of the specification is settled by one theorem below;
counterexamples are closed evaluations of the embedded code at concrete
inputs. The small projection lemmas keep the fixtures opaque while the
session machinery is evaluated.
-/

theorem oC6_pageX : oC6.pageX = 0 := rfl

theorem oC6_pageY : oC6.pageY = 0 := rfl

theorem oC6b_pageX : oC6b.pageX = 0 := rfl

theorem oC6b_pageY : oC6b.pageY = 0 := rfl

theorem pC6_id : pC6.id = "a" := rfl

theorem pC6y11_id : pC6y11.id = "a" := rfl

theorem hmergeC6 : mergeOptions sC6.dragDropOpts pC6.options.dragDrop = sC6.dragDropOpts := rfl

theorem hmergeC6b : mergeOptions sC6.dragDropOpts pC6y11.options.dragDrop = sC6.dragDropOpts := rfl

theorem eC6a_zoom : eC6a.zoomOrPanKey = false := rfl

theorem eC6b_zoom : eC6b.zoomOrPanKey = false := rfl

theorem eC6a_pageX : eC6a.pageX = 0 := rfl

theorem eC6a_pageY : eC6a.pageY = 4 := rfl

theorem eC6b_pageX : eC6b.pageX = 0 := rfl

theorem eC6b_pageY : eC6b.pageY = 6 := rfl

theorem sC6_points : sC6.points = [pC6] := rfl

theorem sC6_live : sC6.dragDropOpts.liveRedraw = none := rfl

theorem sC6b_points : sC6b.points = [pC6y11] := rfl

theorem sC6b_opts : sC6b.dragDropOpts = sC6.dragDropOpts := rfl

theorem hsenC6A :
    hasDraggedPastSensitivity eC6a oC6
      (resolveDragSensitivity pC6.options.dragDrop sC6.dragDropOpts) = true := by
  have h : resolveDragSensitivity pC6.options.dragDrop sC6.dragDropOpts = 2 := rfl
  rw [h]
  simp [hasDraggedPastSensitivity, oC6_pageX, oC6_pageY, eC6a]
  norm_num

theorem hsenC6B :
    hasDraggedPastSensitivity eC6b oC6
      (resolveDragSensitivity pC6.options.dragDrop sC6.dragDropOpts) = true := by
  have h : resolveDragSensitivity pC6.options.dragDrop sC6.dragDropOpts = 2 := rfl
  rw [h]
  simp [hasDraggedPastSensitivity, oC6_pageX, oC6_pageY, eC6b]
  norm_num

theorem hupsC6 :
    effectiveUpdateProps sC6 sC6.dragDropOpts none = [("y", movePropY)] := by
  simp [effectiveUpdateProps, sC6, pC6, fieldOptionOf, pick, movePropY,
    List.filter_cons, Option.getD_none, Option.getD_some, Option.none_orElse,
    Option.orElse_none]

theorem hupsC6b :
    effectiveUpdateProps sC6b sC6.dragDropOpts none = [("y", movePropY)] := by
  simp [effectiveUpdateProps, sC6b, sC6, fieldOptionOf, pick, movePropY,
    List.filter_cons, Option.getD_none, Option.getD_some, Option.none_orElse,
    Option.orElse_none]

theorem hgdvC6A : getDropValues sC6 pC6 oC6 eC6a [("y", movePropY)] = [("y", 11)] := by
  simp [getDropValues, proposedPropValue, limitToRange, clampToRange, dragDeltaValue,
    dragPrecisionOf, dragMinOf, dragMaxOf, pick, jsRound, mergeOptions, oC6,
    getPositionSnapshot, Point.getProp, eC6o, eC6a, sC6, pC6, axC6y, axX, movePropY,
    String.reduceEq, String.reduceBEq, Option.getD_none, Option.getD_some,
    Option.none_orElse, Option.orElse_none,
    List.filterMap_cons, List.filterMap_nil, List.find?_cons, List.any_cons]
  norm_num

theorem hgdvC6B : getDropValues sC6b pC6y11 oC6b eC6b [("y", movePropY)] = [("y", 11)] := by
  simp [getDropValues, proposedPropValue, limitToRange, clampToRange, dragDeltaValue,
    dragPrecisionOf, dragMinOf, dragMaxOf, pick, jsRound, mergeOptions, oC6b, oC6,
    getPositionSnapshot, Point.getProp, eC6o, eC6b, sC6b, sC6, pC6, pC6y11, axC6y, axX,
    movePropY, String.reduceEq, String.reduceBEq, Option.getD_none, Option.getD_some,
    Option.none_orElse, Option.orElse_none,
    List.filterMap_cons, List.filterMap_nil, List.find?_cons, List.any_cons]
  norm_num

theorem hgdvC6C : getDropValues sC6 pC6 oC6 eC6b [("y", movePropY)] = [("y", 12)] := by
  simp [getDropValues, proposedPropValue, limitToRange, clampToRange, dragDeltaValue,
    dragPrecisionOf, dragMinOf, dragMaxOf, pick, jsRound, mergeOptions, oC6,
    getPositionSnapshot, Point.getProp, eC6o, eC6b, sC6, pC6, axC6y, axX, movePropY,
    String.reduceEq, String.reduceBEq, Option.getD_none, Option.getD_some,
    Option.none_orElse, Option.orElse_none,
    List.filterMap_cons, List.filterMap_nil, List.find?_cons, List.any_cons]
  norm_num

theorem happlyC6 : pC6.applyValues [("y", 11)] = pC6y11 := by
  simp [Point.applyValues, Point.setProp, pC6, pC6y11, String.reduceEq, String.reduceBEq]

theorem happlyC6b : pC6y11.applyValues [("y", 11)] = pC6y11 := by
  simp [Point.applyValues, Point.setProp, pC6y11, String.reduceEq, String.reduceBEq]

theorem hmoveC6one : mouseMove eC6a chartC6 = chartC6b := by
  simp [mouseMove, chartC6, hsenC6A, dragMove, storePrevDeltas, updatePoints, getNewPoints, sC6b,
    hmergeC6, hupsC6, hgdvC6A, happlyC6, pC6_id, pC6y11_id, oC6_pageX, oC6_pageY,
    eC6a_zoom, eC6a_pageX, eC6a_pageY, sC6_points, sC6_live,
    chartC6b, oC6b, pick, Option.getD_none, Option.getD_some, Option.none_orElse,
    Option.orElse_none, String.reduceEq, String.reduceBEq,
    List.map_cons, List.map_nil, List.foldl_cons, List.foldl_nil]

theorem hmoveC6two :
    pendingValues (mouseMove eC6b chartC6b) = some (some [("a", [("y", 11)])]) := by
  simp [pendingValues, mouseMove, chartC6b, dragMove, storePrevDeltas, updatePoints, getNewPoints,
    hmergeC6b, hupsC6b, hgdvC6B, happlyC6b, pC6_id, pC6y11_id, oC6b_pageX, oC6b_pageY,
    eC6b_zoom, eC6b_pageX, eC6b_pageY, sC6b_points, sC6b_opts, sC6_live,
    pick, Option.getD_none, Option.getD_some, Option.none_orElse,
    Option.orElse_none, String.reduceEq, String.reduceBEq,
    List.map_cons, List.map_nil, List.foldl_cons, List.foldl_nil]

theorem hmoveC6direct :
    pendingValues (mouseMove eC6b chartC6) = some (some [("a", [("y", 12)])]) := by
  simp [pendingValues, mouseMove, chartC6, hsenC6B, dragMove, storePrevDeltas, updatePoints, getNewPoints,
    hmergeC6, hupsC6, hgdvC6C, pC6_id, oC6_pageX, oC6_pageY,
    eC6b_zoom, eC6b_pageX, eC6b_pageY, sC6_points, sC6_live,
    pick, Option.getD_none, Option.getD_some, Option.none_orElse,
    Option.orElse_none, String.reduceEq, String.reduceBEq,
    List.map_cons, List.map_nil, List.foldl_cons, List.foldl_nil]

/-- Claim C1: for a series whose only movable field is y, origin value
y = 10, a linear axis with toPixels v = v * 2 and toValue its inverse, a
pointer moved 6 pixels down and no precision or range limits configured,
getDropValues computes the value space delta
toValue (toPixels 10 + 6) - 10 = 3 and proposes y = 13. -/
theorem getDropValues_linear_move_scenario :
    dragDeltaValue axC1y 10 0 6 = 3 ∧
    getDropValues sC1 pC1 oC1 { pageX := 0, pageY := 6 } [("y", movePropY)] =
      [("y", 13)] := by
  constructor
  · norm_num [dragDeltaValue, axC1y]
  · simp [getDropValues, proposedPropValue, limitToRange, clampToRange,
      dragDeltaValue, dragPrecisionOf, dragMinOf, dragMaxOf, pick, jsRound,
      mergeOptions, sC1, pC1, oC1, axC1y, axX, movePropY,
      getPositionSnapshot, Point.getProp,
      String.reduceEq, String.reduceBEq, Option.getD_none, Option.getD_some,
      Option.none_orElse, Option.orElse_none, fieldOptionOf,
      List.filterMap_cons, List.filterMap_nil, List.find?_cons, List.any_cons]
    all_goals norm_num

/-- Claim C2, counterexample: with precision 2 and range 0 to 5 configured
(so min at most max and a positive precision), a point at y = 7 and no
pointer movement produce the output value 5, which lies in range but is
not a multiple of the precision: rounding to 8 happens before clamping to
5. The claim that every output is both a multiple of the precision and in
range is therefore false. -/
theorem getDropValues_clamped_multiple_cex :
    getDropValues sC2 pC2 oC2 eC2 [("y", movePropY)] = [("y", 5)] ∧
    ¬ IsMultipleOf 5 2 := by
  constructor
  · simp [getDropValues, proposedPropValue, limitToRange, clampToRange,
      dragDeltaValue, dragPrecisionOf, dragMinOf, dragMaxOf, pick, jsRound,
      mergeOptions, sC2, pC2, oC2, eC2, idAxisY, axX, movePropY,
      getPositionSnapshot, Point.getProp,
      String.reduceEq, String.reduceBEq, Option.getD_none, Option.getD_some,
      Option.none_orElse, Option.orElse_none, fieldOptionOf,
      List.filterMap_cons, List.filterMap_nil, List.find?_cons, List.any_cons]
    all_goals norm_num
  · rintro ⟨k, hk⟩
    have h : (5 : ℤ) = k * 2 := by exact_mod_cast hk
    omega

/-- Claim C9: the sensitivity resolution in mouseMove reads the misspelled
option key dragSensitiviy, so a point level dragSensitivity of 10 under the
documented option name is ignored and the default of 2 is used, while the
resolution the module documents would give 10; the point over series
precedence does hold for the misspelled key that is actually read. -/
theorem resolveDragSensitivity_misspelled_key :
    resolveDragSensitivity { dragSensitivity := some 10 } {} = 2 ∧
    resolveDragSensitivityDocumented { dragSensitivity := some 10 } {} = 10 ∧
    resolveDragSensitivity { dragSensitiviy := some 7 } { dragSensitiviy := some 5 } = 7 := by
  refine ⟨rfl, rfl, rfl⟩

/-- Claim C5, counterexample: both members of the group are updated, but with
the default precision of 1 in force the anchor at origin y = 10 moves to 11
(a delta of 1) while the grouped point at origin y = 52/5 also moves to 11
(a delta of 3/5): the per point rounding makes the effective field deltas
differ, so the claim that every grouped point receives the identical field
deltas is false as stated. -/
theorem getNewPoints_identical_deltas_cex :
    (getNewPoints sC5 ddC5 { pageX := 0, pageY := 1/2 }).map
        (fun e => (e.1, e.2.newValues)) =
      [("a", [("y", 11)]), ("b", [("y", 11)])] ∧
    (11 - 10 : ℚ) ≠ 11 - 52/5 := by
  constructor
  · simp [getNewPoints, getDropValues, proposedPropValue, effectiveUpdateProps,
      limitToRange, clampToRange, dragDeltaValue, dragPrecisionOf, dragMinOf,
      dragMaxOf, fieldOptionOf, pick, jsRound, mergeOptions, getPositionSnapshot,
      getGroupedPoints, PointOptions.lookup, Point.getProp,
      ddC5, sC5, pC5a, pC5b, idAxisY, axX, movePropY,
      String.reduceEq, String.reduceBEq, Option.getD_none, Option.getD_some,
      Option.none_orElse, Option.orElse_none,
      List.filterMap_cons, List.filterMap_nil, List.filter_cons, List.filter_nil,
      List.map_cons, List.map_nil, List.find?_cons, List.any_cons]
    all_goals norm_num
  · norm_num

/-- Claim C6, counterexample: on a non linear axis with live redraw, the
value computed for the same session origin and the same final pointer
position differs depending on whether an intermediate move happened: an
intermediate move to 4 pixels followed by a second move to 6 total pixels
proposes y = 11, while a single direct move to 6 pixels proposes y = 12,
because getDropValues feeds the current (already mutated) point value to
the pixel transform. Value computation is therefore not relative only to
the fixed origin snapshot. -/
theorem mouseMove_intermediate_position_cex :
    pendingValues (mouseMove eC6b (mouseMove eC6a chartC6)) =
      some (some [("a", [("y", 11)])]) ∧
    pendingValues (mouseMove eC6b chartC6) = some (some [("a", [("y", 12)])]) ∧
    (11 : ℚ) ≠ 12 := by
  refine ⟨?_, hmoveC6direct, by norm_num⟩
  rw [hmoveC6one]
  exact hmoveC6two

theorem limitToRange_zero_precision (o : DragDropOptions) (val : ℚ) (dir : Dir)
    (hp : dragPrecisionOf o dir = some 0) :
    limitToRange o val dir =
      clampToRange (dragMinOf o dir) (dragMaxOf o dir) val := by
  unfold limitToRange pick
  rw [hp]
  simp

theorem limitToRange_pos_precision (o : DragDropOptions) (val : ℚ) (dir : Dir)
    (p m M : ℚ) (hp : dragPrecisionOf o dir = some p) (hp0 : 0 < p)
    (hm : dragMinOf o dir = some m) (hM : dragMaxOf o dir = some M)
    (hle : m ≤ M) :
    m ≤ limitToRange o val dir ∧ limitToRange o val dir ≤ M ∧
      (IsMultipleOf (limitToRange o val dir) p ∨ limitToRange o val dir = m ∨
        limitToRange o val dir = M) := by
  unfold limitToRange clampToRange pick
  rw [hp, hm, hM]
  simp only [Option.getD_some]
  rw [if_neg (ne_of_gt hp0)]
  set r := jsRound (val / p) * p with hr
  refine ⟨le_max_left _ _, max_le hle (min_le_left _ _), ?_⟩
  rcases le_total r m with h1 | h1
  · right; left
    rw [min_eq_right (h1.trans hle), max_eq_left h1]
  · rcases le_total r M with h2 | h2
    · left
      rw [min_eq_right h2, max_eq_right h1, hr]
      exact ⟨⌊val / p + 1/2⌋, rfl⟩
    · right; right
      rw [min_eq_left h2, max_eq_right hle]

/-- Claim C10: when no drag precision is configured for a direction, the
default precision of 1 applies, so limitToRange rounds the value to an
integer (the nearest, half rounding up) before clamping it into the
configured range; rounding is skipped exactly when the precision option is
set to 0. -/
theorem limitToRange_default_precision_rounds (o : DragDropOptions) (val : ℚ)
    (dir : Dir) :
    (dragPrecisionOf o dir = none →
      limitToRange o val dir =
        clampToRange (dragMinOf o dir) (dragMaxOf o dir) (jsRound val) ∧
      (∃ k : ℤ, jsRound val = (k : ℚ)) ∧ |jsRound val - val| ≤ 1/2) ∧
    (dragPrecisionOf o dir = some 0 →
      limitToRange o val dir =
        clampToRange (dragMinOf o dir) (dragMaxOf o dir) val) := by
  constructor
  · intro hp
    refine ⟨?_, ⟨⌊val + 1/2⌋, rfl⟩, ?_⟩
    · unfold limitToRange pick
      rw [hp]
      norm_num
    · unfold jsRound
      rw [abs_le]
      constructor
      · have h := Int.lt_floor_add_one (val + 1/2)
        linarith
      · have h := Int.floor_le (val + 1/2)
        linarith
  · exact limitToRange_zero_precision o val dir

/-- Witness for claim C10 at the empty options and value 37/10: the output
is the clamp of the rounded value, the rounded value is an integer, and it
is within a half of the input. -/
theorem limitToRange_default_precision_rounds_witness :
    limitToRange {} (37/10) Dir.X =
      clampToRange (dragMinOf {} Dir.X) (dragMaxOf {} Dir.X) (jsRound (37/10)) ∧
    (∃ k : ℤ, jsRound (37/10) = (k : ℚ)) ∧ |jsRound (37/10) - 37/10| ≤ 1/2 :=
  (limitToRange_default_precision_rounds {} (37/10) Dir.X).1 rfl

/-- Claim C2, amended: for configured min at most max and positive precision
P on both directions, every value output by getDropValues lies within the
range of the direction of its prop, and is either a multiple of P or equal
to one of the two clamp bounds (the rounded value is a multiple of P, but
clamping to a bound that is itself no multiple of P can break the
multiplicity); when the precision is configured as 0, no rounding is
applied before clamping. -/
theorem getDropValues_precision_clamp (series : SeriesModel) (point : Point)
    (origin : Origin) (newPos : MouseEvent)
    (updateProps : List (String × DragDropProp)) (key : String) (v : ℚ)
    (pX mX MX pY mY MY : ℚ)
    (hmem : (key, v) ∈ getDropValues series point origin newPos updateProps)
    (hoX : dragPrecisionOf (mergeOptions series.dragDropOpts point.options.dragDrop)
        Dir.X = some pX)
    (hpX : 0 < pX)
    (hmX : dragMinOf (mergeOptions series.dragDropOpts point.options.dragDrop)
        Dir.X = some mX)
    (hMX : dragMaxOf (mergeOptions series.dragDropOpts point.options.dragDrop)
        Dir.X = some MX)
    (hXle : mX ≤ MX)
    (hoY : dragPrecisionOf (mergeOptions series.dragDropOpts point.options.dragDrop)
        Dir.Y = some pY)
    (hpY : 0 < pY)
    (hmY : dragMinOf (mergeOptions series.dragDropOpts point.options.dragDrop)
        Dir.Y = some mY)
    (hMY : dragMaxOf (mergeOptions series.dragDropOpts point.options.dragDrop)
        Dir.Y = some MY)
    (hYle : mY ≤ MY) :
    ((mX ≤ v ∧ v ≤ MX ∧ (IsMultipleOf v pX ∨ v = mX ∨ v = MX)) ∨
      (mY ≤ v ∧ v ≤ MY ∧ (IsMultipleOf v pY ∨ v = mY ∨ v = MY))) ∧
    (∀ o2 val2 dir2, dragPrecisionOf o2 dir2 = some 0 →
      limitToRange o2 val2 dir2 =
        clampToRange (dragMinOf o2 dir2) (dragMaxOf o2 dir2) val2) := by
  refine ⟨?_, fun o2 val2 dir2 h => limitToRange_zero_precision o2 val2 dir2 h⟩
  simp only [getDropValues, List.mem_filterMap] at hmem
  obtain ⟨kv, hkvmem, heq⟩ := hmem
  split at heq
  · exact absurd heq (by simp)
  · simp only [Option.some.injEq, Prod.mk.injEq] at heq
    obtain ⟨hk, hv⟩ := heq
    rw [← hv]
    simp only [proposedPropValue]
    cases hax : kv.2.axis
    · left
      exact limitToRange_pos_precision _ _ _ _ _ _ hoX hpX hmX hMX hXle
    · right
      exact limitToRange_pos_precision _ _ _ _ _ _ hoY hpY hmY hMY hYle

/-- Witness for the amended claim C2: with precision 2 and ranges 0 to 100
on x and 0 to 5 on y, the output value 5 for the y prop satisfies the
amended bound and multiplicity statement. -/
theorem getDropValues_precision_clamp_witness :
    ((0 ≤ (5:ℚ) ∧ (5:ℚ) ≤ 100 ∧ (IsMultipleOf 5 2 ∨ (5:ℚ) = 0 ∨ (5:ℚ) = 100)) ∨
      (0 ≤ (5:ℚ) ∧ (5:ℚ) ≤ 5 ∧ (IsMultipleOf 5 2 ∨ (5:ℚ) = 0 ∨ (5:ℚ) = 5))) := by
  have hmem : (("y", (5:ℚ))) ∈ getDropValues sC2w pC2 oC2w eC2 [("y", movePropY)] := by
    have h : getDropValues sC2w pC2 oC2w eC2 [("y", movePropY)] = [("y", 5)] := by
      simp [getDropValues, proposedPropValue, limitToRange, clampToRange,
        dragDeltaValue, dragPrecisionOf, dragMinOf, dragMaxOf, pick, jsRound,
        mergeOptions, sC2w, pC2, oC2w, eC2, idAxisY, axX, movePropY,
        getPositionSnapshot, Point.getProp,
        String.reduceEq, String.reduceBEq, Option.getD_none, Option.getD_some,
        Option.none_orElse, Option.orElse_none, fieldOptionOf,
        List.filterMap_cons, List.filterMap_nil, List.find?_cons, List.any_cons]
      all_goals norm_num
    rw [h]
    exact List.mem_singleton.mpr rfl
  exact (getDropValues_precision_clamp sC2w pC2 oC2w eC2 [("y", movePropY)] "y" 5
    2 0 100 2 0 5 hmem rfl (by norm_num) rfl rfl (by norm_num)
    rfl (by norm_num) rfl rfl (by norm_num)).1

/-- Claim C3: when getDropValues updates exactly one prop and that prop
declares a validation predicate, a proposed value failing the predicate
makes the prop absent from the result, and applying the (empty) result to
the point leaves its stored values unchanged. -/
theorem getDropValues_validate_reject (series : SeriesModel) (point : Point)
    (origin : Origin) (newPos : MouseEvent) (key : String) (prop : DragDropProp)
    (f : ℚ → Point → Bool) (hv : prop.propValidate = some f)
    (hf : f (proposedPropValue series
        (mergeOptions series.dragDropOpts point.options.dragDrop) point origin
        newPos key prop) point = false) :
    getDropValues series point origin newPos [(key, prop)] = [] ∧
    Point.applyValues point (getDropValues series point origin newPos [(key, prop)]) =
      point := by
  have h1 : getDropValues series point origin newPos [(key, prop)] = [] := by
    simp only [getDropValues, List.filterMap_cons, List.filterMap_nil, hv, hf]
    simp
  refine ⟨h1, ?_⟩
  rw [h1]
  rfl

/-- Witness for claim C3, the columnrange resize scenario: low = 5,
high = 15, a 11 pixel drag proposing low = 16 fails the low below high
validation, so the result is empty and the point stays unchanged. -/
theorem getDropValues_validate_reject_witness :
    getDropValues sC3 pC3 oC3 eC3 [("low", lowProp)] = [] ∧
    Point.applyValues pC3 (getDropValues sC3 pC3 oC3 eC3 [("low", lowProp)]) =
      pC3 := by
  refine getDropValues_validate_reject sC3 pC3 oC3 eC3 "low" lowProp
    (fun v pt => decide (v < pt.high)) rfl ?_
  have h : proposedPropValue sC3 (mergeOptions sC3.dragDropOpts pC3.options.dragDrop)
      pC3 oC3 eC3 "low" lowProp = 16 := by
    simp [proposedPropValue, limitToRange, clampToRange, dragDeltaValue,
      dragPrecisionOf, dragMinOf, dragMaxOf, pick, jsRound, mergeOptions,
      sC3, pC3, oC3, eC3, idAxisY, axX, lowProp, highProp, getPositionSnapshot,
      Point.getProp, String.reduceEq, String.reduceBEq, Option.getD_none,
      Option.getD_some, Option.none_orElse, Option.orElse_none,
      List.find?_cons, List.any_cons]
    all_goals norm_num
  rw [h]
  have h2 : pC3.high = 15 := rfl
  simp [h2]
  norm_num

/-- Claim C4: while the sensitivity gate of a session has not been passed,
a move event whose squared pixel distance from the down position is at most
the square of the (nonnegative) resolved sensitivity leaves the chart
completely unchanged: no newPoints computation, no point mutation, no flag
change. -/
theorem mouseMove_below_sensitivity_noop (e : MouseEvent) (chart : Chart)
    (d : DragDropData) (hdd : chart.dragDropData = some d)
    (hflag : d.draggedPastSensitivity = false)
    (hs : 0 ≤ resolveDragSensitivity d.point.options.dragDrop chart.series.dragDropOpts)
    (hdist : (e.pageX - d.origin.pageX) * (e.pageX - d.origin.pageX) +
        (e.pageY - d.origin.pageY) * (e.pageY - d.origin.pageY) ≤
      resolveDragSensitivity d.point.options.dragDrop chart.series.dragDropOpts *
        resolveDragSensitivity d.point.options.dragDrop chart.series.dragDropOpts) :
    mouseMove e chart = chart := by
  have hsen : hasDraggedPastSensitivity e d.origin
      (resolveDragSensitivity d.point.options.dragDrop chart.series.dragDropOpts) =
        false := by
    unfold hasDraggedPastSensitivity
    simp only [Bool.or_eq_false_iff, decide_eq_false_iff_not, not_lt]
    exact ⟨hs, hdist⟩
  obtain ⟨ser, inv, hov, dd, gb, isd, anim⟩ := chart
  replace hdd : dd = some d := hdd
  subst hdd
  obtain ⟨org, pt, gps, isdr, up, flag, nps⟩ := d
  replace hflag : flag = false := hflag
  subst hflag
  replace hsen : hasDraggedPastSensitivity e org
      (resolveDragSensitivity pt.options.dragDrop ser.dragDropOpts) = false := hsen
  by_cases hz : e.zoomOrPanKey
  · simp only [mouseMove, hz, if_true]
  · cases hdr : isdr
    · simp only [mouseMove, hz, Bool.false_eq_true, if_false]
    · simp only [mouseMove, hz, Bool.false_eq_true, if_false, if_true,
        Bool.not_false, hsen]

/-- Witness for claim C4: a 1 by 1 pixel move (squared distance 2, below the
squared default sensitivity 4) on the armed session leaves the chart as it
was. -/
theorem mouseMove_below_sensitivity_noop_witness :
    mouseMove { pageX := 1, pageY := 1 } chartC6 = chartC6 := by
  have h2 : resolveDragSensitivity pC6.options.dragDrop chartC6.series.dragDropOpts =
      2 := rfl
  refine mouseMove_below_sensitivity_noop { pageX := 1, pageY := 1 } chartC6
    { origin := oC6, point := pC6, groupedPoints := [pC6], isDragging := true }
    rfl rfl ?_ ?_
  · rw [h2]
    norm_num
  · rw [h2, oC6_pageX, oC6_pageY]
    norm_num

/-- Claim C7: when the prop under resize has static resizeSide top on a
reversed y axis, the side handed to resizeRect is bottom, so the bottom
edge of the guide box is the one adjusted; symmetrically a static left side
on a reversed x axis resizes the right edge. -/
theorem resizeGuideBox_reversed_flips_side (series : SeriesModel)
    (dd : DragDropData) (box : GuideBox) (point : Point) (dX dY : ℚ)
    (key : String) (prop : DragDropProp)
    (hfind : series.dragDropProps.find?
        (fun kv => kv.1 == pick dd.updateProp "") = some (key, prop))
    (hhook : prop.beforeResize = none) :
    (prop.resizeSide = some (ResizeSideSpec.fixed Side.top) → prop.axis = Dir.Y →
      series.yAxis.reversed = true →
      resizeGuideBox series dd box point dX dY =
        resizeRect box (some Side.bottom) (0, dY - pick dd.origin.prevdY 0)) ∧
    (prop.resizeSide = some (ResizeSideSpec.fixed Side.left) → prop.axis = Dir.X →
      series.xAxis.reversed = true →
      resizeGuideBox series dd box point dX dY =
        resizeRect box (some Side.right) (dX - pick dd.origin.prevdX 0, 0)) := by
  constructor
  · intro hside hax hrev
    unfold resizeGuideBox
    rw [hfind]
    simp only [hside, hhook, hax, hrev]
    simp [flipResizeSide]
  · intro hside hax hrev
    unfold resizeGuideBox
    rw [hfind]
    simp only [hside, hhook, hax, hrev]
    simp [flipResizeSide]

/-- Witness for claim C7: resizing the high prop (resizeSide top) on the
reversed y axis series adjusts the bottom edge of the guide box. -/
theorem resizeGuideBox_reversed_flips_side_witness :
    resizeGuideBox sC7 ddC7 boxC7 pC3 3 4 =
      resizeRect boxC7 (some Side.bottom) (0, 4 - pick ddC7.origin.prevdY 0) :=
  (resizeGuideBox_reversed_flips_side sC7 ddC7 boxC7 pC3 3 4 "high" highProp
    rfl rfl).1 rfl rfl rfl

/-- Claim C8: a pointer down during a dragging session behaves exactly as a
pointer up (the forced close), and every pointer up ends with the session
data deleted and the guide box destroyed, so at most one session exists per
chart at any time. -/
theorem mouseDown_forces_close_single_session (e : MouseEvent) (chart : Chart) :
    (e.zoomOrPanKey = false → chartIsDraggingSession chart = true →
      mouseDown e chart = mouseUp e chart) ∧
    (mouseUp e chart).dragDropData = none ∧
    (mouseUp e chart).dragGuideBox = none := by
  refine ⟨?_, rfl, rfl⟩
  intro hz hdrag
  unfold mouseDown
  rw [hz, hdrag]
  simp

/-- Witness for claim C8 on the dragging chart of the grouped series: the
down event is routed through mouseUp and afterwards neither the session
data nor the guide box remains. -/
theorem mouseDown_forces_close_single_session_witness :
    mouseDown eC8 chartC8 = mouseUp eC8 chartC8 ∧
    (mouseUp eC8 chartC8).dragDropData = none ∧
    (mouseUp eC8 chartC8).dragGuideBox = none :=
  ⟨(mouseDown_forces_close_single_session eC8 chartC8).1 rfl rfl,
    (mouseDown_forces_close_single_session eC8 chartC8).2⟩

theorem limitToRange_no_limits (o : DragDropOptions) (val : ℚ) (dir : Dir)
    (hp : dragPrecisionOf o dir = some 0) (hm : dragMinOf o dir = none)
    (hM : dragMaxOf o dir = none) :
    limitToRange o val dir = val := by
  rw [limitToRange_zero_precision o val dir hp, hm, hM]
  rfl

theorem proposedPropValue_no_limits (series : SeriesModel) (o : DragDropOptions)
    (p : Point) (origin : Origin) (newPos : MouseEvent) (key : String)
    (prop : DragDropProp)
    (hpX : o.dragPrecisionX = some 0) (hpY : o.dragPrecisionY = some 0)
    (hmX : o.dragMinX = none) (hMX : o.dragMaxX = none)
    (hmY : o.dragMinY = none) (hMY : o.dragMaxY = none)
    (hlinX : ∀ v w dX dY, dragDeltaValue series.xAxis v dX dY =
      dragDeltaValue series.xAxis w dX dY)
    (hlinY : ∀ v w dX dY, dragDeltaValue series.yAxis v dX dY =
      dragDeltaValue series.yAxis w dX dY) :
    proposedPropValue series o p origin newPos key prop =
      origin.points p.id key +
        (if prop.axis = Dir.X
         then dragDeltaValue series.xAxis 0 (newPos.pageX - origin.pageX)
           (newPos.pageY - origin.pageY)
         else dragDeltaValue series.yAxis 0 (newPos.pageX - origin.pageX)
           (newPos.pageY - origin.pageY)) := by
  simp only [proposedPropValue]
  cases hax : prop.axis
  · rw [limitToRange_no_limits o _ Dir.X hpX hmX hMX]
    simp only [reduceIte]
    rw [hlinX (pick origin.x p.x) 0]
  · rw [limitToRange_no_limits o _ Dir.Y hpY hmY hMY]
    simp only [reduceCtorEq, if_false]
    rw [hlinY (pick origin.y p.y) 0]

theorem getDropValues_no_limits (series : SeriesModel) (p : Point) (origin : Origin)
    (newPos : MouseEvent) (ups : List (String × DragDropProp))
    (hpX : (mergeOptions series.dragDropOpts p.options.dragDrop).dragPrecisionX =
      some 0)
    (hpY : (mergeOptions series.dragDropOpts p.options.dragDrop).dragPrecisionY =
      some 0)
    (hmX : (mergeOptions series.dragDropOpts p.options.dragDrop).dragMinX = none)
    (hMX : (mergeOptions series.dragDropOpts p.options.dragDrop).dragMaxX = none)
    (hmY : (mergeOptions series.dragDropOpts p.options.dragDrop).dragMinY = none)
    (hMY : (mergeOptions series.dragDropOpts p.options.dragDrop).dragMaxY = none)
    (hval : ∀ kv ∈ ups, (kv.2 : DragDropProp).propValidate = none)
    (hlinX : ∀ v w dX dY, dragDeltaValue series.xAxis v dX dY =
      dragDeltaValue series.xAxis w dX dY)
    (hlinY : ∀ v w dX dY, dragDeltaValue series.yAxis v dX dY =
      dragDeltaValue series.yAxis w dX dY) :
    getDropValues series p origin newPos ups =
      ups.map (fun kv => (kv.1, origin.points p.id kv.1 +
        (if kv.2.axis = Dir.X
         then dragDeltaValue series.xAxis 0 (newPos.pageX - origin.pageX)
           (newPos.pageY - origin.pageY)
         else dragDeltaValue series.yAxis 0 (newPos.pageX - origin.pageX)
           (newPos.pageY - origin.pageY)))) := by
  simp only [getDropValues]
  generalize (match ups with
    | [] => (none : Option Bool)
    | [_] => some true
    | _ => some false) = usp
  induction ups with
  | nil => rfl
  | cons kv rest ih =>
    simp only [List.filterMap_cons, List.map_cons]
    rw [hval kv (List.mem_cons_self kv rest)]
    simp only [Bool.and_false, Bool.false_eq_true, if_false]
    rw [proposedPropValue_no_limits series _ p origin newPos kv.1 kv.2
      hpX hpY hmX hMX hmY hMY hlinX hlinY]
    rw [ih (fun kv2 hk2 => hval kv2 (List.mem_cons_of_mem _ hk2))]

/-- Claim C5, amended: for a whole point move, every member of the grouped
point set is updated as a unit (the result has exactly one entry per
grouped point), and on translation invariant (linear) axes with precision
disabled, no range limits and no validators in play, each grouped point
receives the identical value space delta per field, namely the axis delta
taken at reference 0; with precision rounding, clamping or a non linear
axis the effective per point deltas can differ (see the counterexample).
The grouped set itself is exactly the series points sharing the truthy
grouping key value. -/
theorem getNewPoints_grouping_unit (series : SeriesModel) (dd : DragDropData)
    (newPos : MouseEvent)
    (hres : dd.updateProp = none)
    (hopts : ∀ p ∈ dd.groupedPoints,
      (mergeOptions series.dragDropOpts p.options.dragDrop).dragPrecisionX = some 0 ∧
      (mergeOptions series.dragDropOpts p.options.dragDrop).dragPrecisionY = some 0 ∧
      (mergeOptions series.dragDropOpts p.options.dragDrop).dragMinX = none ∧
      (mergeOptions series.dragDropOpts p.options.dragDrop).dragMaxX = none ∧
      (mergeOptions series.dragDropOpts p.options.dragDrop).dragMinY = none ∧
      (mergeOptions series.dragDropOpts p.options.dragDrop).dragMaxY = none)
    (hval : ∀ kv ∈ effectiveUpdateProps series
        (mergeOptions series.dragDropOpts dd.point.options.dragDrop) none,
      (kv.2 : DragDropProp).propValidate = none)
    (hlinX : ∀ v w dX dY, dragDeltaValue series.xAxis v dX dY =
      dragDeltaValue series.xAxis w dX dY)
    (hlinY : ∀ v w dX dY, dragDeltaValue series.yAxis v dX dY =
      dragDeltaValue series.yAxis w dX dY) :
    (getNewPoints series dd newPos =
      dd.groupedPoints.map (fun p =>
        (p.id, { point := p, newValues := groupMoveValues series dd newPos p }))) ∧
    (∀ point v k, series.dragDropOpts.groupBy = some k →
      point.options.lookup k = some v → v ≠ 0 →
      getGroupedPoints series point =
        series.points.filter (fun cp => cp.options.lookup k == some v)) := by
  constructor
  · simp only [getNewPoints, hres]
    apply List.map_congr_left
    intro p hp
    obtain ⟨h1, h2, h3, h4, h5, h6⟩ := hopts p hp
    rw [getDropValues_no_limits series p dd.origin newPos _
      h1 h2 h3 h4 h5 h6 hval hlinX hlinY]
    rfl
  · intro point v k hk hv hv0
    simp only [getGroupedPoints, hk, hv]
    rw [if_pos hv0]

/-- Witness for the amended claim C5: on the precision free grouped series
a 7 pixel drag moves both grouped points by the identical delta 7, from 10
to 17 and from 20 to 27. -/
theorem getNewPoints_grouping_unit_witness :
    getNewPoints sC5w ddC5w eC5w =
      [("a", { point := pW1, newValues := [("y", 17)] }),
       ("b", { point := pW2, newValues := [("y", 27)] })] := by
  have hups : effectiveUpdateProps sC5w
      (mergeOptions sC5w.dragDropOpts ddC5w.point.options.dragDrop) none =
        [("y", movePropY)] := by
    simp [effectiveUpdateProps, sC5w, ddC5w, pW1, fieldOptionOf, pick, movePropY,
      mergeOptions, List.filter_cons, Option.getD_none, Option.getD_some,
      Option.none_orElse, Option.orElse_none]
  have h := (getNewPoints_grouping_unit sC5w ddC5w eC5w rfl ?_ ?_ ?_ ?_).1
  · rw [h]
    have hgv1 : groupMoveValues sC5w ddC5w eC5w pW1 = [("y", 17)] := by
      simp only [groupMoveValues, hups, List.map_cons, List.map_nil]
      simp [ddC5w, pW1, pW2, eC5w, movePropY, dragDeltaValue, sC5w, axX, idAxisY,
        getPositionSnapshot, Point.getProp, String.reduceEq, String.reduceBEq,
        List.find?_cons, List.any_cons]
      norm_num
    have hgv2 : groupMoveValues sC5w ddC5w eC5w pW2 = [("y", 27)] := by
      simp only [groupMoveValues, hups, List.map_cons, List.map_nil]
      simp [ddC5w, pW1, pW2, eC5w, movePropY, dragDeltaValue, sC5w, axX, idAxisY,
        getPositionSnapshot, Point.getProp, String.reduceEq, String.reduceBEq,
        List.find?_cons, List.any_cons]
      norm_num
    have hgrp : ddC5w.groupedPoints = [pW1, pW2] := rfl
    rw [hgrp]
    simp only [List.map_cons, List.map_nil, hgv1, hgv2]
    have h1 : pW1.id = "a" := rfl
    have h2 : pW2.id = "b" := rfl
    rw [h1, h2]
  · intro p hp
    replace hp : p ∈ [pW1, pW2] := hp
    rcases List.mem_cons.mp hp with h1 | h1
    · subst h1
      exact ⟨rfl, rfl, rfl, rfl, rfl, rfl⟩
    · rcases List.mem_cons.mp h1 with h2 | h2
      · subst h2
        exact ⟨rfl, rfl, rfl, rfl, rfl, rfl⟩
      · exact absurd h2 (List.not_mem_nil p)
  · intro kv hk
    rw [hups] at hk
    rcases List.mem_cons.mp hk with h1 | h1
    · subst h1
      rfl
    · exact absurd h1 (List.not_mem_nil kv)
  · intro v w dX dY
    simp [dragDeltaValue, sC5w, axX]
  · intro v w dX dY
    simp [dragDeltaValue, sC5w, idAxisY]

theorem updatePoints_origin_parts (chart : Chart) :
    ((updatePoints chart).dragDropData).map originKern =
      (chart.dragDropData).map originKern := by
  unfold updatePoints
  cases hdd : chart.dragDropData with
  | none => exact congrArg (Option.map originKern) hdd
  | some d =>
    obtain ⟨org, pt, gps, isdr, up, flag, nps⟩ := d
    cases nps with
    | none => exact congrArg (Option.map originKern) hdd
    | some l => rfl

theorem storePrevDeltas_origin_parts (chart : Chart) (dX dY : ℚ) :
    ((storePrevDeltas chart dX dY).dragDropData).map originKern =
      (chart.dragDropData).map originKern := by
  unfold storePrevDeltas
  cases hdd : chart.dragDropData with
  | none => exact congrArg (Option.map originKern) hdd
  | some d2 => rfl

theorem dragMove_origin_parts (e : MouseEvent) (chart : Chart) :
    ((dragMove e chart).dragDropData).map originKern =
      (chart.dragDropData).map originKern := by
  unfold dragMove
  cases hdd : chart.dragDropData with
  | none => exact congrArg (Option.map originKern) hdd
  | some data =>
    dsimp only
    rw [storePrevDeltas_origin_parts]
    split
    · rw [updatePoints_origin_parts]
      rfl
    · split <;> split <;> rfl

theorem proposedPropValue_point_independent (series : SeriesModel)
    (o : DragDropOptions) (p1 p2 : Point) (origin : Origin) (newPos : MouseEvent)
    (key : String) (prop : DragDropProp) (hid : p1.id = p2.id)
    (hlinX : ∀ v w dX dY, dragDeltaValue series.xAxis v dX dY =
      dragDeltaValue series.xAxis w dX dY)
    (hlinY : ∀ v w dX dY, dragDeltaValue series.yAxis v dX dY =
      dragDeltaValue series.yAxis w dX dY) :
    proposedPropValue series o p1 origin newPos key prop =
      proposedPropValue series o p2 origin newPos key prop := by
  simp only [proposedPropValue]
  rw [hid, hlinX (pick origin.x p1.x) (pick origin.x p2.x),
    hlinY (pick origin.y p1.y) (pick origin.y p2.y)]

theorem getDropValues_point_independent (series : SeriesModel) (p1 p2 : Point)
    (origin : Origin) (newPos : MouseEvent) (ups : List (String × DragDropProp))
    (hid : p1.id = p2.id) (hopt : p1.options = p2.options)
    (hval : ∀ kv ∈ ups, (kv.2 : DragDropProp).propValidate = none)
    (hlinX : ∀ v w dX dY, dragDeltaValue series.xAxis v dX dY =
      dragDeltaValue series.xAxis w dX dY)
    (hlinY : ∀ v w dX dY, dragDeltaValue series.yAxis v dX dY =
      dragDeltaValue series.yAxis w dX dY) :
    getDropValues series p1 origin newPos ups =
      getDropValues series p2 origin newPos ups := by
  simp only [getDropValues, hopt]
  generalize (match ups with
    | [] => (none : Option Bool)
    | [_] => some true
    | _ => some false) = usp
  induction ups with
  | nil => rfl
  | cons kv rest ih =>
    simp only [List.filterMap_cons]
    rw [hval kv (List.mem_cons_self kv rest)]
    simp only [Bool.and_false, Bool.false_eq_true, if_false]
    rw [proposedPropValue_point_independent series _ p1 p2 origin newPos kv.1 kv.2
      hid hlinX hlinY]
    rw [ih (fun kv2 hk2 => hval kv2 (List.mem_cons_of_mem _ hk2))]

/-- Claim C6, amended: the reference frame of the snapshot is indeed fixed:
no move event ever changes the origin pointer coordinates or the per point
origin values (only the prevdX and prevdY bookkeeping fields are written).
The base value of every computation comes from that snapshot; however, the
reference value fed to the pixel transform is the current point value, so
the full claim of independence from intermediate positions holds only on
translation invariant (linear) axes, where getDropValues does not depend
on the current point position at all; on a non linear axis with live
redraw the computed value can depend on intermediate positions (see the
counterexample). -/
theorem origin_fixed_linear_independent :
    (∀ e chart, ((mouseMove e chart).dragDropData).map originKern =
      (chart.dragDropData).map originKern) ∧
    (∀ (series : SeriesModel) (p1 p2 : Point) (origin : Origin)
        (newPos : MouseEvent) (ups : List (String × DragDropProp)),
      p1.id = p2.id → p1.options = p2.options →
      (∀ kv ∈ ups, (kv.2 : DragDropProp).propValidate = none) →
      (∀ v w dX dY, dragDeltaValue series.xAxis v dX dY =
        dragDeltaValue series.xAxis w dX dY) →
      (∀ v w dX dY, dragDeltaValue series.yAxis v dX dY =
        dragDeltaValue series.yAxis w dX dY) →
      getDropValues series p1 origin newPos ups =
        getDropValues series p2 origin newPos ups) := by
  constructor
  · intro e chart
    unfold mouseMove
    split
    · rfl
    · cases hdd : chart.dragDropData with
      | none => exact congrArg (Option.map originKern) hdd
      | some d =>
        by_cases hdrag : d.isDragging
        · simp only [hdrag, if_true]
          split <;> split <;>
            first
            | (rw [dragMove_origin_parts]; rfl)
            | rfl
        · simp only [hdrag, Bool.false_eq_true, if_false]
          rw [hdd]
  · intro series p1 p2 origin newPos ups hid hopt hval hlinX hlinY
    exact getDropValues_point_independent series p1 p2 origin newPos ups
      hid hopt hval hlinX hlinY

/-- Witness for the amended claim C6: the first move of the intermediate
position example leaves every reference frame part of the origin snapshot
unchanged, and on the identity axes of the grouped series the drop values
of two points differing only in their current position coincide. -/
theorem origin_fixed_linear_independent_witness :
    ((mouseMove eC6a chartC6).dragDropData).map originKern =
      (chartC6.dragDropData).map originKern ∧
    getDropValues sC5 pC6 oC6 eC6b [("y", movePropY)] =
      getDropValues sC5 pC6y11 oC6 eC6b [("y", movePropY)] := by
  refine ⟨(origin_fixed_linear_independent).1 eC6a chartC6,
    (origin_fixed_linear_independent).2 sC5 pC6 pC6y11 oC6 eC6b [("y", movePropY)]
      rfl rfl ?_ ?_ ?_⟩
  · intro kv hk
    rcases List.mem_cons.mp hk with h1 | h1
    · subst h1
      rfl
    · exact absurd h1 (List.not_mem_nil kv)
  · intro v w dX dY
    simp [dragDeltaValue, sC5, axX]
  · intro v w dX dY
    simp [dragDeltaValue, sC5, idAxisY]

end DraggablePoints
